import Mathlib

/-!
Shallow embedding of `src/sun_position.py` (glare-reducer).

Numeric model: Python floats are idealized as exact rationals (`ℚ`) for the
glare/actuation pipeline and as reals (`ℝ`) for the trigonometric solar
ephemeris.  Machine-level float rounding is not modelled.  Python operations
with non-total float semantics are modelled explicitly:
`round` is round-half-to-even (`pyRound`), `int(...)` truncates toward zero
(`pyInt`), `x % y` for `y > 0` is floor-mod (`fmodQ` / `fmodR`), and float
division by zero (a `ZeroDivisionError` in Python) is modelled with `Option`
where a claim depends on it.

Module-level configuration globals (`HORIZON_OBSTRUCTIONS`, `WINDOW_AZIMUTH`,
blind settings, ...) are passed as explicit parameters; `load_horizon_profile`
performs file I/O and is modelled by an `Option` parameter (`none` when the
file is missing or unreadable, `some h` when a profile mapping was loaded).
-/

/-- Python `round(x)`: round half to even, returning an integer
(used by `is_sun_blocked_by_terrain`, line 268 of the source). -/
def pyRound (x : ℚ) : ℤ :=
  let n := ⌊x⌋
  let frac := x - n
  if frac < 1 / 2 then n
  else if 1 / 2 < frac then n + 1
  else if n % 2 = 0 then n else n + 1

/-- Python `int(x)` on a float: truncation toward zero. -/
def pyInt (x : ℚ) : ℤ :=
  if x < 0 then ⌈x⌉ else ⌊x⌋

/-- Python `round(x, 1)`: round to one decimal place, ties to even. -/
def round1 (x : ℚ) : ℚ :=
  (pyRound (x * 10) : ℚ) / 10

/-- Python float `x % y` for `y > 0` (result in `[0, y)`); used only with
divisor 360 in the source. -/
def fmodQ (x y : ℚ) : ℚ :=
  x - y * ⌊x / y⌋

/-- `angle_difference` (source lines 253-256): the smallest angle between two
azimuths, `min(|a1 - a2| % 360, 360 - |a1 - a2| % 360)`. -/
def angle_difference (a1 a2 : ℚ) : ℚ :=
  let diff := fmodQ |a1 - a2| 360
  min diff (360 - diff)

/-- The 5-degree azimuth bucket key `round(sun_az / 5) * 5 % 360` used for the
horizon-profile lookup (source line 268).  The Python key is the decimal string
of this integer; integer keys are an equivalent model since the profile
builder writes exactly such decimal strings. -/
def az_bucket (sun_az : ℚ) : ℤ :=
  pyRound (sun_az / 5) * 5 % 360

/-- `is_sun_blocked_by_terrain` (source lines 259-285).

`horizon` models the result of `load_horizon_profile()`: `none` when the
profile file is missing or unreadable, `some h` when a mapping was loaded
(possibly empty).  `obstructions` models the `HORIZON_OBSTRUCTIONS` config
global, a list of `(azimuth_start, azimuth_end, min_altitude)` triples.

Python's `if horizon:` is truthiness: it is entered only when the profile is
present AND non-empty.  Inside it, if the quantized bucket exists the answer
is authoritative (`sun_alt < horizon_alt`); otherwise control falls through to
the manual-obstruction scan. -/
def is_sun_blocked_by_terrain (horizon : Option (List (ℤ × ℚ)))
    (obstructions : List (ℚ × ℚ × ℚ)) (sun_az sun_alt : ℚ) : Bool :=
  let fallback : Bool := obstructions.any fun o =>
    decide ((if o.1 ≤ o.2.1 then o.1 ≤ sun_az ∧ sun_az ≤ o.2.1
             else o.1 ≤ sun_az ∨ sun_az ≤ o.2.1) ∧ sun_alt < o.2.2)
  match horizon with
  | some h =>
    if h.isEmpty then fallback
    else
      match List.lookup (az_bucket sun_az) h with
      | some horizon_alt => decide (sun_alt < horizon_alt)
      | none => fallback
  | none => fallback

/-- `can_sun_enter_window` (source lines 507-530).  The source default for
`window_fov` is 140. -/
def can_sun_enter_window (sun_az sun_alt window_az window_fov : ℚ) :
    Bool × ℚ :=
  if sun_alt ≤ 0 then (false, 180)
  else
    let angle_from_window := angle_difference sun_az window_az
    (decide (angle_from_window ≤ window_fov / 2), angle_from_window)

/-- Altitude factor of the glare model (source lines 582-587). -/
def altitude_factor (sun_alt : ℚ) : ℚ :=
  if sun_alt < 10 then 1
  else if sun_alt < 25 then (25 - sun_alt) / 15
  else 0

/-- Entry-angle factor of the glare model (source lines 592-595). -/
def entry_factor (entry_angle : ℚ) : ℚ :=
  if entry_angle < 60 then (60 - entry_angle) / 60
  else 0

/-- The combined, boosted, clamped glare risk of `analyze_glare`
(source lines 599-608). -/
def glare_risk_value (sun_alt entry_angle : ℚ) : ℚ :=
  let glare_risk := 100 * (0.5 * altitude_factor sun_alt
    + 0.5 * entry_factor entry_angle)
  let glare_risk :=
    if 0.5 < altitude_factor sun_alt ∧ 0.5 < entry_factor entry_angle
    then min 100 (glare_risk * 1.3) else glare_risk
  min 100 (max 0 glare_risk)

/-- The result dictionary of `analyze_glare`.  The short-circuit branches of
the source omit the `"sun_altitude"` key, hence the `Option` field. -/
structure GlareResult where
  status : String
  can_enter_window : Bool
  entry_angle : ℚ
  sun_altitude : Option ℚ
  glare_risk : ℚ
  recommendation : String
deriving DecidableEq, Repr

/-- `analyze_glare` (source lines 533-628).  `horizon` and `obstructions`
model the terrain inputs exactly as in `is_sun_blocked_by_terrain`;
`window_az` and `monitor_facing` model the `WINDOW_AZIMUTH` and
`MONITOR_FACING` config globals (the latter is accepted and unused, as in the
source).  The nested call to `can_sun_enter_window` uses the source's default
field of view 140. -/
def analyze_glare (horizon : Option (List (ℤ × ℚ)))
    (obstructions : List (ℚ × ℚ × ℚ))
    (sun_az sun_alt window_az monitor_facing : ℚ) : GlareResult :=
  if sun_alt ≤ 0 then
    ⟨"night", false, 0, none, 0, "blinds_open"⟩
  else if is_sun_blocked_by_terrain horizon obstructions sun_az sun_alt then
    ⟨"blocked_by_terrain", false, 0, none, 0, "blinds_open"⟩
  else
    let r := can_sun_enter_window sun_az sun_alt window_az 140
    if r.1 = false then
      ⟨"no_direct_sun", false, round1 r.2, none, 0, "blinds_open"⟩
    else
      let glare_risk := glare_risk_value sun_alt r.2
      let sr : String × String :=
        if 60 < glare_risk then ("high_glare", "blinds_closed")
        else if 35 < glare_risk then ("moderate_glare", "blinds_partial")
        else ("low_glare", "blinds_open")
      ⟨sr.1, true, round1 r.2, some (round1 sun_alt), round1 glare_risk, sr.2⟩

/-- The blind-actuation configuration globals of the source
(`DAY_BLIND_MIN_OPEN`, `DAY_BLIND_MAX_OPEN`, `GLARE_THRESHOLD_LOW`,
`GLARE_THRESHOLD_HIGH`, `GLARE_RESPONSE_CURVE`; source lines 105-109).
The response-curve exponent is modelled at integer values of the source's
float exponent (the shipped default is `1.0`); a rational base raised to a
non-integral power is not expressible in the exact-rational model. -/
structure BlindConfig where
  day_blind_min_open : ℤ
  day_blind_max_open : ℤ
  glare_threshold_low : ℚ
  glare_threshold_high : ℚ
  glare_response_curve : ℤ
deriving DecidableEq, Repr

/-- Python float `x ** c` at an integer exponent: `0.0 ** c` raises
`ZeroDivisionError` for negative `c`, modelled as `none`. -/
def py_pow (x : ℚ) (c : ℤ) : Option ℚ :=
  if x = 0 ∧ c < 0 then none else some (x ^ c)

/-- `calculate_day_blind` (source lines 777-806).  Returns `none` exactly
where the Python function raises: the division
`(glare_risk - GLARE_THRESHOLD_LOW) / glare_range` is a `ZeroDivisionError`
when the two thresholds are equal, and `normalized ** GLARE_RESPONSE_CURVE`
raises on a zero base with a negative exponent. -/
def calculate_day_blind (cfg : BlindConfig) (glare_risk : ℚ) : Option ℤ :=
  if glare_risk < cfg.glare_threshold_low then
    some cfg.day_blind_max_open
  else
    let glare_range := cfg.glare_threshold_high - cfg.glare_threshold_low
    let open_range : ℚ :=
      (cfg.day_blind_max_open : ℚ) - (cfg.day_blind_min_open : ℚ)
    if glare_range = 0 then none
    else
      let normalized := (glare_risk - cfg.glare_threshold_low) / glare_range
      let normalized := max 0 (min 1 normalized)
      let curved : Option ℚ :=
        if cfg.glare_response_curve = 1 then some normalized
        else py_pow normalized cfg.glare_response_curve
      match curved with
      | none => none
      | some normalized =>
        let day_open :=
          pyInt ((cfg.day_blind_max_open : ℚ) - normalized * open_range)
        some (max cfg.day_blind_min_open (min cfg.day_blind_max_open day_open))

/-- `get_blind_step` (source lines 809-816): scan the `(threshold, name)`
table in reversed order, return the first name with `day_open >= threshold`,
defaulting to the first entry's name.  `steps` models the `BLIND_STEPS`
config global; on an empty table the Python default lookup
`BLIND_STEPS[0][1]` raises `IndexError`, modelled as `none`. -/
def get_blind_step (steps : List (ℤ × String)) (day_open : ℤ) : Option String :=
  match steps.reverse.find? (fun p => decide (p.1 ≤ day_open)) with
  | some p => some p.2
  | none => steps.head?.map Prod.snd

/-- The default `blind_steps` table of `DEFAULT_CONFIG`
(source lines 49-55). -/
def DEFAULT_BLIND_STEPS : List (ℤ × String) :=
  [(0, "severe"), (45, "high"), (60, "moderate"), (80, "low"), (95, "none")]

/-- The clamped normalized glare of `calculate_day_blind` (source lines
791-796), as a total function (meaningful when the two thresholds differ). -/
def day_blind_normalized (cfg : BlindConfig) (risk : ℚ) : ℚ :=
  max 0 (min 1 ((risk - cfg.glare_threshold_low)
    / (cfg.glare_threshold_high - cfg.glare_threshold_low)))

def day_blind_value (cfg : BlindConfig) (risk : ℚ) : ℤ :=
  if risk < cfg.glare_threshold_low then cfg.day_blind_max_open
  else max cfg.day_blind_min_open (min cfg.day_blind_max_open
    (pyInt ((cfg.day_blind_max_open : ℚ)
      - day_blind_normalized cfg risk ^ cfg.glare_response_curve.toNat
        * ((cfg.day_blind_max_open : ℚ) - (cfg.day_blind_min_open : ℚ)))))

/-- A UTC instant as consumed by `julian_day` (source line 119): the source
converts a zone-aware datetime to UTC with external library code before any
arithmetic, so the embedding starts from the UTC fields. -/
structure DateTimeUTC where
  year : ℤ
  month : ℤ
  day : ℤ
  hour : ℤ
  minute : ℤ
  second : ℤ
deriving DecidableEq, Repr

/-- `julian_day` (source lines 119-133). -/
def julian_day (dt : DateTimeUTC) : ℚ :=
  let day : ℚ := (dt.day : ℚ) + (dt.hour : ℚ) / 24 + (dt.minute : ℚ) / 1440
    + (dt.second : ℚ) / 86400
  let year : ℤ := if dt.month ≤ 2 then dt.year - 1 else dt.year
  let month : ℤ := if dt.month ≤ 2 then dt.month + 12 else dt.month
  let a : ℤ := pyInt ((year : ℚ) / 100)
  let b : ℤ := 2 - a + pyInt ((a : ℚ) / 4)
  (pyInt (365.25 * ((year : ℚ) + 4716)) : ℚ)
    + (pyInt (30.6001 * ((month : ℚ) + 1)) : ℚ) + day + (b : ℚ) - 1524.5

/-- `math.radians`. -/
noncomputable def radians (x : ℝ) : ℝ := x * Real.pi / 180

/-- `math.degrees`. -/
noncomputable def degrees (x : ℝ) : ℝ := x * 180 / Real.pi

/-- Python float `x % y` for `y > 0` over the reals. -/
noncomputable def fmodR (x y : ℝ) : ℝ := x - y * ⌊x / y⌋

/-- `math.atan2 y x`. -/
noncomputable def atan2 (y x : ℝ) : ℝ :=
  if 0 < x then Real.arctan (y / x)
  else if x < 0 then
    (if 0 ≤ y then Real.arctan (y / x) + Real.pi
     else Real.arctan (y / x) - Real.pi)
  else if 0 < y then Real.pi / 2
  else if y < 0 then -(Real.pi / 2)
  else 0

/-- The Julian day of `sun_position` as a real (source line 150). -/
noncomputable def jd_of (dt : DateTimeUTC) : ℝ := ((julian_day dt : ℚ) : ℝ)

/-- Julian centuries `t` from J2000.0 (source line 153). -/
noncomputable def jcent_of (dt : DateTimeUTC) : ℝ :=
  (jd_of dt - 2451545.0) / 36525.0

/-- Mean longitude `l0` of the sun (source line 157). -/
noncomputable def mean_lon_of (dt : DateTimeUTC) : ℝ :=
  let t := jcent_of dt
  fmodR (280.46646 + 36000.76983 * t + 0.0003032 * t ^ 2) 360

/-- Mean anomaly `m` of the sun (source line 160). -/
noncomputable def mean_anomaly_of (dt : DateTimeUTC) : ℝ :=
  let t := jcent_of dt
  fmodR (357.52911 + 35999.05029 * t - 0.0001537 * t ^ 2) 360

/-- Equation of center `c` (source lines 164-168). -/
noncomputable def eq_center_of (dt : DateTimeUTC) : ℝ :=
  let t := jcent_of dt
  let m_rad := radians (mean_anomaly_of dt)
  (1.914602 - 0.004817 * t - 0.000014 * t ^ 2) * Real.sin m_rad
    + (0.019993 - 0.000101 * t) * Real.sin (2 * m_rad)
    + 0.000289 * Real.sin (3 * m_rad)

/-- The sun's apparent longitude `sun_apparent_lon`, corrected for nutation
and aberration (source lines 171-175). -/
noncomputable def apparent_lon_of (dt : DateTimeUTC) : ℝ :=
  let t := jcent_of dt
  let sun_lon := mean_lon_of dt + eq_center_of dt
  let omega := 125.04 - 1934.136 * t
  sun_lon - 0.00569 - 0.00478 * Real.sin (radians omega)

/-- Obliquity of the ecliptic in degrees (source line 178). -/
noncomputable def obliquity_of (dt : DateTimeUTC) : ℝ :=
  23.439291 - 0.0130042 * jcent_of dt

/-- The sun's right ascension `ra` (source lines 184-187). -/
noncomputable def ra_of (dt : DateTimeUTC) : ℝ :=
  atan2 (Real.cos (radians (obliquity_of dt))
      * Real.sin (radians (apparent_lon_of dt)))
    (Real.cos (radians (apparent_lon_of dt)))

/-- The sun's declination (source line 189). -/
noncomputable def declination_of (dt : DateTimeUTC) : ℝ :=
  Real.arcsin (Real.sin (radians (obliquity_of dt))
    * Real.sin (radians (apparent_lon_of dt)))

/-- Greenwich Mean Sidereal Time in degrees (source lines 192-197). -/
noncomputable def gmst_of (dt : DateTimeUTC) : ℝ :=
  let t := jcent_of dt
  fmodR (280.46061837 + 360.98564736629 * (jd_of dt - 2451545.0)
    + 0.000387933 * t ^ 2 - t ^ 3 / 38710000) 360

/-- Hour angle `ha = lst - ra` (source lines 200-203). -/
noncomputable def hour_angle_of (dt : DateTimeUTC) (lon : ℝ) : ℝ :=
  radians (fmodR (gmst_of dt + lon) 360) - ra_of dt

/-- The altitude/azimuth block of `sun_position` (source lines 205-226), as a
function of the latitude in radians, the declination and the hour angle;
returns `(azimuth, altitude)` in degrees. -/
noncomputable def horiz_from (lat_rad declination ha : ℝ) : ℝ × ℝ :=
  let sin_alt := Real.sin lat_rad * Real.sin declination
    + Real.cos lat_rad * Real.cos declination * Real.cos ha
  let altitude := degrees (Real.arcsin sin_alt)
  let cos_az := (Real.sin declination - Real.sin lat_rad * sin_alt)
    / (Real.cos lat_rad * Real.cos (Real.arcsin sin_alt))
  let cos_az := max (-1) (min 1 cos_az)
  let azimuth := degrees (Real.arccos cos_az)
  let azimuth := if 0 < Real.sin ha then 360 - azimuth else azimuth
  (azimuth, altitude)

/-- `sun_position` (source lines 136-226), starting from a UTC instant (the
source's timezone conversion at lines 146-148 is external library code).
Returns `(azimuth, altitude)` in degrees. -/
noncomputable def sun_position (dt : DateTimeUTC) (lat lon : ℝ) : ℝ × ℝ :=
  horiz_from (radians lat) (declination_of dt) (hour_angle_of dt lon)

/-- C5: `can_sun_enter_window` returns `(false, 180)` for sun altitude `≤ 0`;
for positive altitude the entry angle is the shortest-arc circular distance
`min(|Δ| mod 360, 360 - |Δ| mod 360)` between sun azimuth and window azimuth,
and entry is permitted iff that angle is at most half the field of view. -/
theorem can_sun_enter_window_spec (sun_az sun_alt window_az window_fov : ℚ) :
    (sun_alt ≤ 0 →
      can_sun_enter_window sun_az sun_alt window_az window_fov = (false, 180)) ∧
    (0 < sun_alt →
      (can_sun_enter_window sun_az sun_alt window_az window_fov).2
        = min (fmodQ |sun_az - window_az| 360)
            (360 - fmodQ |sun_az - window_az| 360) ∧
      ((can_sun_enter_window sun_az sun_alt window_az window_fov).1 = true ↔
        (can_sun_enter_window sun_az sun_alt window_az window_fov).2
          ≤ window_fov / 2)) := by
  constructor
  · intro h
    simp [can_sun_enter_window, h]
  · intro h
    simp [can_sun_enter_window, not_le.2 h, angle_difference]

/-- Witness for C5 at concrete inputs: a below-horizon sun short-circuits,
and an above-horizon sun at entry angle 30 from a 140-degree window. -/
theorem can_sun_enter_window_spec_witness :
    can_sun_enter_window 90 (-5) 90 140 = (false, 180) ∧
    ((can_sun_enter_window 120 30 90 140).1 = true ↔
      (can_sun_enter_window 120 30 90 140).2 ≤ 140 / 2) :=
  ⟨(can_sun_enter_window_spec 90 (-5) 90 140).1 (by norm_num),
   ((can_sun_enter_window_spec 120 30 90 140).2 (by norm_num)).2⟩

/-- C1: `analyze_glare` evaluates its short-circuit policy in strict order:
altitude `≤ 0` gives status `"night"` with risk 0; otherwise a terrain block
gives `"blocked_by_terrain"` with risk 0; otherwise a sun that cannot enter
the window gives `"no_direct_sun"` with risk 0; all three recommend
`"blinds_open"`. -/
theorem analyze_glare_short_circuit (horizon : Option (List (ℤ × ℚ)))
    (obstructions : List (ℚ × ℚ × ℚ)) (sun_az sun_alt window_az mf : ℚ) :
    (sun_alt ≤ 0 →
      analyze_glare horizon obstructions sun_az sun_alt window_az mf
        = ⟨"night", false, 0, none, 0, "blinds_open"⟩) ∧
    (0 < sun_alt →
      is_sun_blocked_by_terrain horizon obstructions sun_az sun_alt = true →
      analyze_glare horizon obstructions sun_az sun_alt window_az mf
        = ⟨"blocked_by_terrain", false, 0, none, 0, "blinds_open"⟩) ∧
    (0 < sun_alt →
      is_sun_blocked_by_terrain horizon obstructions sun_az sun_alt = false →
      ¬ angle_difference sun_az window_az ≤ 140 / 2 →
      analyze_glare horizon obstructions sun_az sun_alt window_az mf
        = ⟨"no_direct_sun", false, round1 (angle_difference sun_az window_az),
            none, 0, "blinds_open"⟩) := by
  refine ⟨fun h => by simp [analyze_glare, h], fun h0 hb => ?_, fun h0 hb he => ?_⟩
  · simp [analyze_glare, not_le.2 h0, hb]
  · simp [analyze_glare, not_le.2 h0, hb, can_sun_enter_window, he]

unseal Rat.add Rat.sub Rat.mul Rat.inv Rat.ofScientific in
/-- Witness for C1: all three short circuits at concrete inputs (night at
altitude -5; terrain block from the spec scenario with horizon angle 15 at
bucket 90, sun at azimuth 91 and altitude 10; no direct sun at azimuth 250
for an east-facing window). -/
theorem analyze_glare_short_circuit_witness :
    analyze_glare none [] 100 (-5) 90 180
      = ⟨"night", false, 0, none, 0, "blinds_open"⟩ ∧
    analyze_glare (some [(90, 15)]) [] 91 10 90 180
      = ⟨"blocked_by_terrain", false, 0, none, 0, "blinds_open"⟩ ∧
    analyze_glare none [] 250 10 90 180
      = ⟨"no_direct_sun", false, round1 (angle_difference 250 90),
          none, 0, "blinds_open"⟩ :=
  ⟨(analyze_glare_short_circuit none [] 100 (-5) 90 180).1 (by norm_num),
   (analyze_glare_short_circuit (some [(90, 15)]) [] 91 10 90 180).2.1
     (by norm_num) (by decide),
   (analyze_glare_short_circuit none [] 250 10 90 180).2.2
     (by norm_num) (by decide) (by decide)⟩

unseal Rat.add Rat.sub Rat.mul Rat.inv Rat.ofScientific in
/-- C3 counterexample: with a present-but-empty horizon profile and a manual
obstruction covering the sun, the occlusion check still reports blocked — the
fallback to manual obstructions fires even though the profile is present, so
a present-but-empty profile is not treated differently from a missing one. -/
theorem empty_profile_falls_back_counterexample :
    is_sun_blocked_by_terrain (some []) [(80, 100, 15)] 90 10 = true := by
  decide

/-- C3 amended: Python's `if horizon:` truthiness makes a present-but-empty
profile indistinguishable from a missing one inside
`is_sun_blocked_by_terrain`: the fallback to manual obstructions triggers
when the profile is absent, empty, or lacks the quantized bucket, and an
empty present profile yields exactly the behaviour of an absent one. -/
theorem empty_profile_same_as_missing (obstructions : List (ℚ × ℚ × ℚ))
    (sun_az sun_alt : ℚ) :
    is_sun_blocked_by_terrain (some []) obstructions sun_az sun_alt
      = is_sun_blocked_by_terrain none obstructions sun_az sun_alt := rfl

unseal Rat.add Rat.sub Rat.mul Rat.inv Rat.ofScientific in
/-- C7: at `glare_risk = 20` with `glare_threshold_low = glare_threshold_high
= 20` (thresholds inside `[0, 100]` with high `≤` low) the source's
`calculate_day_blind` divides by a zero `glare_range` and raises
`ZeroDivisionError` instead of returning a value. -/
theorem calculate_day_blind_div_by_zero :
    calculate_day_blind ⟨10, 100, 20, 20, 1⟩ 20 = none := by decide

unseal Rat.add Rat.sub Rat.mul Rat.inv Rat.ofScientific in
/-- C6 counterexample: a configuration with equal thresholds makes
`calculate_day_blind` raise (return no value) at risk 50, so without further
hypotheses it is neither total nor clamped into the configured bounds. -/
theorem calculate_day_blind_equal_thresholds_counterexample :
    calculate_day_blind ⟨10, 100, 20, 20, 1⟩ 50 = none := by decide

/-- C2: with a profile present and the quantized bucket
`round(az/5)*5 mod 360` found, the occlusion answer is authoritative —
blocked iff altitude is strictly below the stored horizon angle, for every
manual-obstruction list; with no profile or a missing bucket, the answer is
the manual scan: blocked iff some obstruction contains the azimuth (with
wraparound when start > end) and the altitude is strictly below its minimum
altitude. -/
theorem is_sun_blocked_by_terrain_spec (horizon : Option (List (ℤ × ℚ)))
    (obstructions : List (ℚ × ℚ × ℚ)) (sun_az sun_alt : ℚ) :
    (∀ h a, horizon = some h → List.lookup (az_bucket sun_az) h = some a →
      (is_sun_blocked_by_terrain horizon obstructions sun_az sun_alt = true ↔
        sun_alt < a)) ∧
    ((horizon = none ∨
        ∀ h, horizon = some h → List.lookup (az_bucket sun_az) h = none) →
      (is_sun_blocked_by_terrain horizon obstructions sun_az sun_alt = true ↔
        ∃ o ∈ obstructions,
          (if o.1 ≤ o.2.1 then o.1 ≤ sun_az ∧ sun_az ≤ o.2.1
           else o.1 ≤ sun_az ∨ sun_az ≤ o.2.1) ∧ sun_alt < o.2.2)) := by
  constructor
  · rintro h a rfl hlook
    have hne : h.isEmpty = false := by
      cases h with
      | nil => simp at hlook
      | cons x xs => rfl
    simp [is_sun_blocked_by_terrain, hne, hlook]
  · rintro (rfl | hl)
    · simp [is_sun_blocked_by_terrain, List.any_eq_true]
    · cases horizon with
      | none => simp [is_sun_blocked_by_terrain, List.any_eq_true]
      | some h =>
        have hlook := hl h rfl
        by_cases hemp : h.isEmpty <;>
          simp [is_sun_blocked_by_terrain, hemp, hlook, List.any_eq_true]

unseal Rat.add Rat.sub Rat.mul Rat.inv Rat.ofScientific in
/-- Witness for C2: a present profile whose bucket 90 records horizon angle 5
overrides a manual obstruction that would block (sun at azimuth 91, altitude
10), and with no profile a wraparound obstruction 350..20 blocks a sun at
azimuth 5, altitude 10. -/
theorem is_sun_blocked_by_terrain_spec_witness :
    is_sun_blocked_by_terrain (some [(90, 5)]) [(0, 359, 90)] 91 10 = false ∧
    is_sun_blocked_by_terrain none [(350, 20, 15)] 5 10 = true := by
  constructor
  · have h := (is_sun_blocked_by_terrain_spec (some [(90, 5)]) [(0, 359, 90)]
      91 10).1 [(90, 5)] 5 rfl (by decide)
    exact Bool.eq_false_iff.mpr fun ht => absurd (h.mp ht) (by norm_num)
  · exact ((is_sun_blocked_by_terrain_spec none [(350, 20, 15)] 5 10).2
      (Or.inl rfl)).mpr ⟨(350, 20, 15), by simp, by norm_num⟩

/-- The weighted-sum branch of `analyze_glare` (reached when the sun is up,
not terrain-blocked, and can enter the window) in closed form. -/
lemma analyze_glare_main_branch (horizon : Option (List (ℤ × ℚ)))
    (obstructions : List (ℚ × ℚ × ℚ)) (sun_az sun_alt window_az mf : ℚ)
    (h0 : 0 < sun_alt)
    (hb : is_sun_blocked_by_terrain horizon obstructions sun_az sun_alt
      = false)
    (he : angle_difference sun_az window_az ≤ 140 / 2) :
    analyze_glare horizon obstructions sun_az sun_alt window_az mf =
      ⟨(if 60 < glare_risk_value sun_alt (angle_difference sun_az window_az)
          then "high_glare"
        else if 35 < glare_risk_value sun_alt (angle_difference sun_az window_az)
          then "moderate_glare"
        else "low_glare"),
       true, round1 (angle_difference sun_az window_az), some (round1 sun_alt),
       round1 (glare_risk_value sun_alt (angle_difference sun_az window_az)),
       (if 60 < glare_risk_value sun_alt (angle_difference sun_az window_az)
          then "blinds_closed"
        else if 35 < glare_risk_value sun_alt (angle_difference sun_az window_az)
          then "blinds_partial"
        else "blinds_open")⟩ := by
  unfold analyze_glare
  rw [if_neg (not_le.2 h0)]
  rw [if_neg (by simp [hb] : ¬ is_sun_blocked_by_terrain horizon obstructions
    sun_az sun_alt = true)]
  simp only [can_sun_enter_window, if_neg (not_le.2 h0)]
  rw [if_neg (by simp [he] :
    ¬ decide (angle_difference sun_az window_az ≤ 140 / 2) = false)]
  split_ifs <;> rfl

/-- C4: the computed glare risk is classified with exclusive lower
boundaries: risk above 60 is `"high_glare"`/`"blinds_closed"`, risk in
(35, 60] is `"moderate_glare"`/`"blinds_partial"`, and risk at most 35
(including exactly 35 and exactly 60 for the respective lower buckets) is
`"low_glare"`/`"blinds_open"`. -/
theorem analyze_glare_classification (horizon : Option (List (ℤ × ℚ)))
    (obstructions : List (ℚ × ℚ × ℚ)) (sun_az sun_alt window_az mf : ℚ)
    (h0 : 0 < sun_alt)
    (hb : is_sun_blocked_by_terrain horizon obstructions sun_az sun_alt
      = false)
    (he : angle_difference sun_az window_az ≤ 140 / 2) :
    (60 < glare_risk_value sun_alt (angle_difference sun_az window_az) →
      (analyze_glare horizon obstructions sun_az sun_alt window_az mf).status
          = "high_glare" ∧
      (analyze_glare horizon obstructions sun_az sun_alt window_az
        mf).recommendation = "blinds_closed") ∧
    (35 < glare_risk_value sun_alt (angle_difference sun_az window_az) →
      glare_risk_value sun_alt (angle_difference sun_az window_az) ≤ 60 →
      (analyze_glare horizon obstructions sun_az sun_alt window_az mf).status
          = "moderate_glare" ∧
      (analyze_glare horizon obstructions sun_az sun_alt window_az
        mf).recommendation = "blinds_partial") ∧
    (glare_risk_value sun_alt (angle_difference sun_az window_az) ≤ 35 →
      (analyze_glare horizon obstructions sun_az sun_alt window_az mf).status
          = "low_glare" ∧
      (analyze_glare horizon obstructions sun_az sun_alt window_az
        mf).recommendation = "blinds_open") := by
  rw [analyze_glare_main_branch horizon obstructions sun_az sun_alt window_az
    mf h0 hb he]
  refine ⟨fun h1 => ?_, fun h1 h2 => ?_, fun h1 => ?_⟩ <;>
    split_ifs <;> simp_all <;> linarith

unseal Rat.add Rat.sub Rat.mul Rat.inv Rat.ofScientific in
/-- Witness for C4 at a boundary input: sun altitude 22 through an
east-facing window at entry angle 0 gives glare risk exactly 60, which falls
in the lower, moderate bucket. -/
theorem analyze_glare_classification_witness :
    (analyze_glare none [] 90 22 90 180).status = "moderate_glare" ∧
    (analyze_glare none [] 90 22 90 180).recommendation = "blinds_partial" :=
  (analyze_glare_classification none [] 90 22 90 180 (by norm_num) (by decide)
    (by decide)).2.1 (by decide) (by decide)

/-- C10 (implicit): in the weighted-sum branch, whenever both the altitude
factor and the entry factor strictly exceed 0.5, the alignment boost and the
pre-boost sum force the final risk above 60, so the status is `"high_glare"`
and the recommendation is `"blinds_closed"`. -/
theorem alignment_boost_forces_high_glare (horizon : Option (List (ℤ × ℚ)))
    (obstructions : List (ℚ × ℚ × ℚ)) (sun_az sun_alt window_az mf : ℚ)
    (h0 : 0 < sun_alt)
    (hb : is_sun_blocked_by_terrain horizon obstructions sun_az sun_alt
      = false)
    (he : angle_difference sun_az window_az ≤ 140 / 2)
    (haf : 0.5 < altitude_factor sun_alt)
    (hef : 0.5 < entry_factor (angle_difference sun_az window_az)) :
    (analyze_glare horizon obstructions sun_az sun_alt window_az mf).status
        = "high_glare" ∧
    (analyze_glare horizon obstructions sun_az sun_alt window_az
      mf).recommendation = "blinds_closed" := by
  have hrisk : 60 < glare_risk_value sun_alt (angle_difference sun_az
      window_az) := by
    unfold glare_risk_value
    dsimp only
    rw [if_pos ⟨haf, hef⟩]
    have h13 : 60 < min 100 ((100 * (0.5 * altitude_factor sun_alt
        + 0.5 * entry_factor (angle_difference sun_az window_az))) * 1.3) :=
      lt_min (by norm_num) (by nlinarith)
    exact lt_min (by norm_num) (lt_of_lt_of_le h13 (le_max_right _ _))
  rw [analyze_glare_main_branch horizon obstructions sun_az sun_alt window_az
    mf h0 hb he]
  simp [hrisk]

unseal Rat.add Rat.sub Rat.mul Rat.inv Rat.ofScientific in
/-- Witness for C10: sun at altitude 5 squarely in front of the window
(entry angle 0) has both factors equal to 1 and yields a high-glare,
blinds-closed result. -/
theorem alignment_boost_forces_high_glare_witness :
    (analyze_glare none [] 90 5 90 180).status = "high_glare" ∧
    (analyze_glare none [] 90 5 90 180).recommendation = "blinds_closed" :=
  alignment_boost_forces_high_glare none [] 90 5 90 180 (by norm_num)
    (by decide) (by decide) (by decide) (by decide)


/-- The value `calculate_day_blind` returns whenever it returns one, with the
response curve applied as a natural-number power. -/
lemma calculate_day_blind_eq_value (cfg : BlindConfig)
    (hne : cfg.glare_threshold_high ≠ cfg.glare_threshold_low)
    (hc : 0 ≤ cfg.glare_response_curve) (r : ℚ) :
    calculate_day_blind cfg r = some (day_blind_value cfg r) := by
  have hgr : ¬ cfg.glare_threshold_high - cfg.glare_threshold_low = 0 :=
    sub_ne_zero.2 hne
  unfold calculate_day_blind day_blind_value
  by_cases h1 : r < cfg.glare_threshold_low
  · rw [if_pos h1, if_pos h1]
  · rw [if_neg h1, if_neg h1]
    dsimp only
    rw [if_neg hgr]
    by_cases hc1 : cfg.glare_response_curve = 1
    · rw [if_pos hc1]
      dsimp only [day_blind_normalized]
      rw [hc1]
      norm_num
    · rw [if_neg hc1]
      unfold py_pow
      rw [if_neg (fun hand => absurd hand.2 (not_lt.2 hc))]
      dsimp only [day_blind_normalized]
      rw [← zpow_natCast, Int.toNat_of_nonneg hc]

/-- Truncation toward zero is monotone. -/
lemma pyInt_mono {x y : ℚ} (h : x ≤ y) : pyInt x ≤ pyInt y := by
  unfold pyInt
  split_ifs with hx hy hy
  · exact Int.ceil_le_ceil h
  · have h1 : ⌈x⌉ ≤ (0 : ℤ) := Int.ceil_le.2 (by exact_mod_cast hx.le)
    have h2 : (0 : ℤ) ≤ ⌊y⌋ := Int.floor_nonneg.2 (not_lt.1 hy)
    omega
  · exact absurd (lt_of_le_of_lt h hy) hx
  · exact Int.floor_le_floor h

lemma day_blind_normalized_nonneg (cfg : BlindConfig) (r : ℚ) :
    0 ≤ day_blind_normalized cfg r := le_max_left 0 _

lemma day_blind_normalized_mono (cfg : BlindConfig) {ra rb : ℚ}
    (hne : cfg.glare_threshold_high ≠ cfg.glare_threshold_low)
    (ha : cfg.glare_threshold_low ≤ ra) (h12 : ra ≤ rb) :
    day_blind_normalized cfg ra ≤ day_blind_normalized cfg rb := by
  unfold day_blind_normalized
  rcases (sub_ne_zero.2 hne).lt_or_lt with hr | hr
  · have qa : (ra - cfg.glare_threshold_low)
        / (cfg.glare_threshold_high - cfg.glare_threshold_low) ≤ 0 :=
      div_nonpos_iff.2 (Or.inl ⟨by linarith, le_of_lt hr⟩)
    have qb : (rb - cfg.glare_threshold_low)
        / (cfg.glare_threshold_high - cfg.glare_threshold_low) ≤ 0 :=
      div_nonpos_iff.2 (Or.inl ⟨by linarith, le_of_lt hr⟩)
    rw [min_eq_right (le_trans qa (by norm_num)),
        min_eq_right (le_trans qb (by norm_num)),
        max_eq_left qa, max_eq_left qb]
  · exact max_le_max (le_refl 0) (min_le_min (le_refl 1)
      ((div_le_div_iff_of_pos_right hr).2 (by linarith)))

lemma day_blind_value_mem (cfg : BlindConfig)
    (hmm : cfg.day_blind_min_open ≤ cfg.day_blind_max_open) (r : ℚ) :
    cfg.day_blind_min_open ≤ day_blind_value cfg r ∧
      day_blind_value cfg r ≤ cfg.day_blind_max_open := by
  unfold day_blind_value
  split_ifs
  · exact ⟨hmm, le_refl _⟩
  · exact ⟨le_max_left _ _, max_le hmm (min_le_left _ _)⟩

lemma day_blind_value_anti (cfg : BlindConfig) {r1 r2 : ℚ}
    (hne : cfg.glare_threshold_high ≠ cfg.glare_threshold_low)
    (hmm : cfg.day_blind_min_open ≤ cfg.day_blind_max_open)
    (h12 : r1 ≤ r2) :
    day_blind_value cfg r2 ≤ day_blind_value cfg r1 := by
  unfold day_blind_value
  split_ifs with ha hb hb
  · exact le_refl _
  · exact absurd (lt_of_le_of_lt h12 ha) hb
  · exact max_le hmm (min_le_left _ _)
  · have hn12 : day_blind_normalized cfg r1 ≤ day_blind_normalized cfg r2 :=
      day_blind_normalized_mono cfg hne (not_lt.1 hb) h12
    have hpow : day_blind_normalized cfg r1 ^ cfg.glare_response_curve.toNat
        ≤ day_blind_normalized cfg r2 ^ cfg.glare_response_curve.toNat :=
      pow_le_pow_left₀ (day_blind_normalized_nonneg cfg r1) hn12 _
    have hopen : (0 : ℚ) ≤ (cfg.day_blind_max_open : ℚ)
        - (cfg.day_blind_min_open : ℚ) := by
      rw [sub_nonneg]
      exact_mod_cast hmm
    have harg : (cfg.day_blind_max_open : ℚ)
        - day_blind_normalized cfg r2 ^ cfg.glare_response_curve.toNat
          * ((cfg.day_blind_max_open : ℚ) - (cfg.day_blind_min_open : ℚ))
        ≤ (cfg.day_blind_max_open : ℚ)
        - day_blind_normalized cfg r1 ^ cfg.glare_response_curve.toNat
          * ((cfg.day_blind_max_open : ℚ) - (cfg.day_blind_min_open : ℚ)) := by
      nlinarith [mul_le_mul_of_nonneg_right hpow hopen]
    exact max_le_max (le_refl _) (min_le_min (le_refl _) (pyInt_mono harg))

/-- C6 amended: for a fixed configuration whose two glare thresholds differ,
whose response-curve exponent is nonnegative, and whose open bounds satisfy
`min_open ≤ max_open` (the spec's stated configuration invariant),
`calculate_day_blind` is total, monotonically non-increasing in `glare_risk`,
and its results are clamped into `[day_blind_min_open, day_blind_max_open]`.
(Equal thresholds make it raise `ZeroDivisionError`, see the counterexample;
a negative curve exponent raises on a zero base.) -/
theorem calculate_day_blind_monotone (cfg : BlindConfig) (r1 r2 : ℚ)
    (hne : cfg.glare_threshold_high ≠ cfg.glare_threshold_low)
    (hc : 0 ≤ cfg.glare_response_curve)
    (hmm : cfg.day_blind_min_open ≤ cfg.day_blind_max_open)
    (h12 : r1 ≤ r2) :
    ∃ v1 v2, calculate_day_blind cfg r1 = some v1 ∧
      calculate_day_blind cfg r2 = some v2 ∧ v2 ≤ v1 ∧
      cfg.day_blind_min_open ≤ v1 ∧ v1 ≤ cfg.day_blind_max_open ∧
      cfg.day_blind_min_open ≤ v2 ∧ v2 ≤ cfg.day_blind_max_open :=
  ⟨day_blind_value cfg r1, day_blind_value cfg r2,
    calculate_day_blind_eq_value cfg hne hc r1,
    calculate_day_blind_eq_value cfg hne hc r2,
    day_blind_value_anti cfg hne hmm h12,
    (day_blind_value_mem cfg hmm r1).1, (day_blind_value_mem cfg hmm r1).2,
    (day_blind_value_mem cfg hmm r2).1, (day_blind_value_mem cfg hmm r2).2⟩

unseal Rat.add Rat.sub Rat.mul Rat.inv Rat.ofScientific in
/-- Witness for C6 at the shipped default configuration (bounds 10..100,
thresholds 20..100, linear curve) and risks 30 ≤ 50. -/
theorem calculate_day_blind_monotone_witness :
    ∃ v1 v2, calculate_day_blind ⟨10, 100, 20, 100, 1⟩ 30 = some v1 ∧
      calculate_day_blind ⟨10, 100, 20, 100, 1⟩ 50 = some v2 ∧ v2 ≤ v1 ∧
      (10 : ℤ) ≤ v1 ∧ v1 ≤ 100 ∧ (10 : ℤ) ≤ v2 ∧ v2 ≤ 100 :=
  calculate_day_blind_monotone ⟨10, 100, 20, 100, 1⟩ 30 50 (by norm_num)
    (by norm_num) (by norm_num) (by norm_num)


/-- `List.find?` over a strictly descending `(threshold, name)` list returns
the greatest threshold satisfying the predicate `threshold ≤ d`, when any
entry satisfies it. -/
lemma find_desc (d : ℤ) (l : List (ℤ × String))
    (hs : List.Pairwise (fun p q : ℤ × String => q.1 < p.1) l) :
    (∀ p, l.find? (fun p => decide (p.1 ≤ d)) = some p →
      p.1 ≤ d ∧ p ∈ l ∧ ∀ q ∈ l, q.1 ≤ d → q.1 ≤ p.1) ∧
    ((∃ q ∈ l, q.1 ≤ d) →
      ∃ p, l.find? (fun p => decide (p.1 ≤ d)) = some p) := by
  induction l with
  | nil =>
    constructor
    · intro p hp
      simp at hp
    · rintro ⟨q, hq, _⟩
      simp at hq
  | cons a tl ih =>
    rcases List.pairwise_cons.1 hs with ⟨hhead, htl⟩
    rcases ih htl with ⟨ih1, ih2⟩
    by_cases had : a.1 ≤ d
    · constructor
      · intro p hp
        rw [List.find?_cons_of_pos _ (by simpa using had)] at hp
        cases hp
        refine ⟨had, List.mem_cons_self a tl, ?_⟩
        intro q hq _
        rcases List.mem_cons.1 hq with rfl | hq2
        · exact le_refl _
        · exact le_of_lt (hhead q hq2)
      · intro _
        exact ⟨a, List.find?_cons_of_pos _ (by simpa using had)⟩
    · constructor
      · intro p hp
        rw [List.find?_cons_of_neg _ (by simpa using had)] at hp
        rcases ih1 p hp with ⟨h1, h2, h3⟩
        refine ⟨h1, List.mem_cons_of_mem a h2, ?_⟩
        intro q hq hqd
        rcases List.mem_cons.1 hq with rfl | hq2
        · exact absurd hqd had
        · exact h3 q hq2 hqd
      · rintro ⟨q, hq, hqd⟩
        rcases List.mem_cons.1 hq with rfl | hq2
        · exact absurd hqd had
        · rw [List.find?_cons_of_neg _ (by simpa using had)]
          exact ih2 ⟨q, hq2, hqd⟩

/-- C8: `get_blind_step` scans the table in descending threshold order and
returns the first name whose threshold is at most the open percentage; if no
entry qualifies it returns the first entry's name as default; consequently,
for a strictly ascending table whose first threshold is at most the open
percentage, the returned name's threshold is at most the open percentage and
is the greatest such threshold in the table. -/
theorem get_blind_step_spec (steps : List (ℤ × String)) (d : ℤ)
    (hsorted : List.Pairwise (fun p q : ℤ × String => p.1 < q.1) steps)
    (t0 : ℤ) (n0 : String) (hhead : steps.head? = some (t0, n0)) :
    (t0 ≤ d →
      ∃ t n, (t, n) ∈ steps ∧ get_blind_step steps d = some n ∧ t ≤ d ∧
        ∀ t2 n2, (t2, n2) ∈ steps → t2 ≤ d → t2 ≤ t) ∧
    ((∀ p ∈ steps, d < p.1) → get_blind_step steps d = some n0) := by
  have hrev : List.Pairwise (fun p q : ℤ × String => q.1 < p.1)
      steps.reverse := by
    rw [List.pairwise_reverse]
    exact hsorted
  obtain ⟨f1, f2⟩ := find_desc d steps.reverse hrev
  constructor
  · intro ht0
    have hmem : (t0, n0) ∈ steps := by
      cases steps with
      | nil => simp at hhead
      | cons a tl =>
        simp only [List.head?_cons, Option.some.injEq] at hhead
        rw [← hhead]
        exact List.mem_cons_self a tl
    obtain ⟨p, hp⟩ := f2 ⟨(t0, n0), List.mem_reverse.2 hmem, ht0⟩
    obtain ⟨hp1, hp2, hp3⟩ := f1 p hp
    refine ⟨p.1, p.2, List.mem_reverse.1 hp2, ?_, hp1, ?_⟩
    · unfold get_blind_step
      rw [hp]
    · intro t2 n2 hmem2 ht2
      exact hp3 (t2, n2) (List.mem_reverse.2 hmem2) ht2
  · intro hall
    have hnone : steps.reverse.find? (fun p => decide (p.1 ≤ d)) = none :=
      List.find?_eq_none.2 fun x hx => by
        simpa using not_le.2 (hall x (List.mem_reverse.1 hx))
    unfold get_blind_step
    rw [hnone, hhead]
    rfl

/-- Witness for C8: the default table at open percentage 70 (the matching
entry is threshold 60, and no greater qualifying threshold exists). -/
theorem get_blind_step_spec_witness :
    ∃ t n, (t, n) ∈ DEFAULT_BLIND_STEPS ∧
      get_blind_step DEFAULT_BLIND_STEPS 70 = some n ∧ t ≤ 70 ∧
      ∀ t2 n2, (t2, n2) ∈ DEFAULT_BLIND_STEPS → t2 ≤ 70 → t2 ≤ t :=
  (get_blind_step_spec DEFAULT_BLIND_STEPS 70 (by decide) 0 "severe"
    (by rfl)).1 (by decide)


lemma pyInt_eq_floor {x : ℚ} (h : 0 ≤ x) : pyInt x = ⌊x⌋ :=
  if_neg (not_lt.2 h)

lemma pyInt_le {x : ℚ} (h : 0 ≤ x) : (pyInt x : ℚ) ≤ x := by
  rw [pyInt_eq_floor h]
  exact Int.floor_le x

lemma pyInt_gt {x : ℚ} (h : 0 ≤ x) : x - 1 < (pyInt x : ℚ) := by
  rw [pyInt_eq_floor h]
  exact Int.sub_one_lt_floor x

lemma pyInt_nonneg {x : ℚ} (h : 0 ≤ x) : 0 ≤ pyInt x := by
  rw [pyInt_eq_floor h]
  exact Int.floor_nonneg.2 h

/-- For any calendar field values in the documented valid ranges, the Julian
day lies between 10^6 and 6*10^6. -/
lemma julian_day_bounds (dt : DateTimeUTC) (hy1 : 1 ≤ dt.year)
    (hy2 : dt.year ≤ 9999) (hm1 : 1 ≤ dt.month) (hm2 : dt.month ≤ 12)
    (hd1 : 1 ≤ dt.day) (hd2 : dt.day ≤ 31) (hh1 : 0 ≤ dt.hour)
    (hh2 : dt.hour ≤ 23) (hmi1 : 0 ≤ dt.minute) (hmi2 : dt.minute ≤ 59)
    (hs1 : 0 ≤ dt.second) (hs2 : dt.second ≤ 59) :
    (1000000 : ℚ) ≤ julian_day dt ∧ julian_day dt ≤ 6000000 := by
  unfold julian_day
  dsimp only
  set y : ℤ := if dt.month ≤ 2 then dt.year - 1 else dt.year with hy
  set m : ℤ := if dt.month ≤ 2 then dt.month + 12 else dt.month with hm
  have hy0 : 0 ≤ y := by
    rw [hy]; split_ifs <;> omega
  have hy9 : y ≤ 9999 := by
    rw [hy]; split_ifs <;> omega
  have hm3 : 3 ≤ m := by
    rw [hm]; split_ifs <;> omega
  have hm14 : m ≤ 14 := by
    rw [hm]; split_ifs <;> omega
  have hyq0 : (0 : ℚ) ≤ (y : ℚ) := by exact_mod_cast hy0
  have hyq9 : (y : ℚ) ≤ 9999 := by exact_mod_cast hy9
  have hmq3 : (3 : ℚ) ≤ (m : ℚ) := by exact_mod_cast hm3
  have hmq14 : (m : ℚ) ≤ 14 := by exact_mod_cast hm14
  -- a = pyInt (y / 100) and its bounds
  have ha0 : (0 : ℚ) ≤ (y : ℚ) / 100 := by positivity
  have haq : (pyInt ((y : ℚ) / 100) : ℚ) ≤ 99.99 :=
    le_trans (pyInt_le ha0) (by linarith)
  have haq0 : (0 : ℚ) ≤ (pyInt ((y : ℚ) / 100) : ℚ) := by
    exact_mod_cast pyInt_nonneg ha0
  have hadiv : (0 : ℚ) ≤ (pyInt ((y : ℚ) / 100) : ℚ) / 4 := by positivity
  have hbq1 : (pyInt ((pyInt ((y : ℚ) / 100) : ℚ) / 4) : ℚ)
      ≤ (pyInt ((y : ℚ) / 100) : ℚ) / 4 := pyInt_le hadiv
  have hbq0 : (0 : ℚ) ≤ (pyInt ((pyInt ((y : ℚ) / 100) : ℚ) / 4) : ℚ) := by
    exact_mod_cast pyInt_nonneg hadiv
  -- the three main terms
  have hP1a : (0 : ℚ) ≤ 365.25 * ((y : ℚ) + 4716) := by nlinarith
  have hP1le : (pyInt (365.25 * ((y : ℚ) + 4716)) : ℚ)
      ≤ 365.25 * ((y : ℚ) + 4716) := pyInt_le hP1a
  have hP1gt : 365.25 * ((y : ℚ) + 4716) - 1
      < (pyInt (365.25 * ((y : ℚ) + 4716)) : ℚ) := pyInt_gt hP1a
  have hP2a : (0 : ℚ) ≤ 30.6001 * ((m : ℚ) + 1) := by nlinarith
  have hP2le : (pyInt (30.6001 * ((m : ℚ) + 1)) : ℚ)
      ≤ 30.6001 * ((m : ℚ) + 1) := pyInt_le hP2a
  have hP2gt : 30.6001 * ((m : ℚ) + 1) - 1
      < (pyInt (30.6001 * ((m : ℚ) + 1)) : ℚ) := pyInt_gt hP2a
  -- day fraction
  have hdq1 : (1 : ℚ) ≤ (dt.day : ℚ) := by exact_mod_cast hd1
  have hdq2 : (dt.day : ℚ) ≤ 31 := by exact_mod_cast hd2
  have hhq1 : (0 : ℚ) ≤ (dt.hour : ℚ) := by exact_mod_cast hh1
  have hhq2 : (dt.hour : ℚ) ≤ 23 := by exact_mod_cast hh2
  have hmiq1 : (0 : ℚ) ≤ (dt.minute : ℚ) := by exact_mod_cast hmi1
  have hmiq2 : (dt.minute : ℚ) ≤ 59 := by exact_mod_cast hmi2
  have hsq1 : (0 : ℚ) ≤ (dt.second : ℚ) := by exact_mod_cast hs1
  have hsq2 : (dt.second : ℚ) ≤ 59 := by exact_mod_cast hs2
  push_cast
  constructor <;> nlinarith

lemma degrees_le_degrees {x y : ℝ} (h : x ≤ y) : degrees x ≤ degrees y := by
  unfold degrees
  have hpi := Real.pi_pos
  gcongr

lemma degrees_nonneg {x : ℝ} (h : 0 ≤ x) : 0 ≤ degrees x := by
  unfold degrees
  positivity

lemma degrees_pos {x : ℝ} (h : 0 < x) : 0 < degrees x := by
  unfold degrees
  have hpi := Real.pi_pos
  positivity

lemma degrees_arcsin_bounds (x : ℝ) :
    -90 ≤ degrees (Real.arcsin x) ∧ degrees (Real.arcsin x) ≤ 90 := by
  have hpi := Real.pi_pos
  constructor
  · calc (-90 : ℝ) = degrees (-(Real.pi / 2)) := by
          unfold degrees; field_simp; ring
      _ ≤ degrees (Real.arcsin x) :=
          degrees_le_degrees (Real.neg_pi_div_two_le_arcsin x)
  · calc degrees (Real.arcsin x) ≤ degrees (Real.pi / 2) :=
          degrees_le_degrees (Real.arcsin_le_pi_div_two x)
      _ = 90 := by unfold degrees; field_simp; ring

lemma degrees_arccos_bounds (x : ℝ) :
    0 ≤ degrees (Real.arccos x) ∧ degrees (Real.arccos x) ≤ 180 := by
  have hpi := Real.pi_pos
  constructor
  · exact degrees_nonneg (Real.arccos_nonneg x)
  · calc degrees (Real.arccos x) ≤ degrees Real.pi :=
        degrees_le_degrees (Real.arccos_le_pi x)
      _ = 180 := by unfold degrees; field_simp

/-- Range of the altitude/azimuth block: with a nonnegative cosine of the
latitude and a strictly positive cosine of the declination, the azimuth is in
`[0, 360)` and the altitude in `[-90, 90]`. -/
lemma horiz_from_range (lat_rad declination ha : ℝ)
    (hphi : 0 ≤ Real.cos lat_rad) (hdelta : 0 < Real.cos declination) :
    0 ≤ (horiz_from lat_rad declination ha).1 ∧
    (horiz_from lat_rad declination ha).1 < 360 ∧
    -90 ≤ (horiz_from lat_rad declination ha).2 ∧
    (horiz_from lat_rad declination ha).2 ≤ 90 := by
  unfold horiz_from
  dsimp only
  set s := Real.sin lat_rad * Real.sin declination
    + Real.cos lat_rad * Real.cos declination * Real.cos ha with hs
  set cos_az := (Real.sin declination - Real.sin lat_rad * s)
    / (Real.cos lat_rad * Real.cos (Real.arcsin s)) with hcos_az
  obtain ⟨haz0, haz180⟩ := degrees_arccos_bounds (max (-1 : ℝ) (min 1 cos_az))
  obtain ⟨halt1, halt2⟩ := degrees_arcsin_bounds s
  refine ⟨?_, ?_, halt1, halt2⟩
  · split_ifs with hH
    · linarith
    · exact haz0
  · split_ifs with hH
    · -- flipped case: show the computed cosine is strictly below 1
      have hcaz : cos_az < 1 := by
        rcases eq_or_lt_of_le (mul_nonneg hphi
            (Real.cos_arcsin s ▸ Real.sqrt_nonneg (1 - s ^ 2))) with hd | hd
        · rw [hcos_az, ← hd, div_zero]
          norm_num
        · have hcphi : 0 < Real.cos lat_rad := by
            rcases mul_pos_iff.1 hd with ⟨h1, _⟩ | ⟨h1, _⟩
            · exact h1
            · exact absurd h1 (not_lt.2 hphi)
          have hcarc : 0 < Real.cos (Real.arcsin s) := by
            rcases mul_pos_iff.1 hd with ⟨_, h2⟩ | ⟨h1, _⟩
            · exact h2
            · exact absurd h1 (not_lt.2 hphi)
          have hs2 : s ^ 2 < 1 := by
            have hca := Real.cos_arcsin s
            rw [hca] at hcarc
            have := Real.sqrt_pos.1 hcarc
            linarith
          set u := Real.cos lat_rad * Real.sin declination
            - Real.sin lat_rad * Real.cos declination * Real.cos ha with hu
          have hnum : Real.sin declination - Real.sin lat_rad * s
              = Real.cos lat_rad * u := by
            rw [hs, hu]
            linear_combination (-Real.sin declination)
              * Real.sin_sq_add_cos_sq lat_rad
          have hkey : u ^ 2 + s ^ 2
              + (Real.cos declination * Real.sin ha) ^ 2 = 1 := by
            rw [hs, hu]
            linear_combination (Real.sin declination ^ 2
                + Real.cos declination ^ 2 * Real.cos ha ^ 2)
                * Real.sin_sq_add_cos_sq lat_rad
              + Real.cos declination ^ 2 * Real.sin_sq_add_cos_sq ha
              + Real.sin_sq_add_cos_sq declination
          have hcs : 0 < (Real.cos declination * Real.sin ha) ^ 2 :=
            pow_pos (mul_pos hdelta hH) 2
          have hu2 : u ^ 2 < Real.cos (Real.arcsin s) ^ 2 := by
            rw [Real.cos_arcsin,
              Real.sq_sqrt (by linarith : (0 : ℝ) ≤ 1 - s ^ 2)]
            linarith
          have hult : u < Real.cos (Real.arcsin s) := by
            nlinarith [hcarc]
          rw [hcos_az, hnum, mul_div_mul_left _ _ (ne_of_gt hcphi)]
          exact (div_lt_one hcarc).2 hult
      have hcl1 : max (-1 : ℝ) (min 1 cos_az) < 1 :=
        max_lt (by norm_num) (min_lt_iff.2 (Or.inr hcaz))
      have harccos : 0 < Real.arccos (max (-1 : ℝ) (min 1 cos_az)) :=
        Real.arccos_pos.2 hcl1
      have := degrees_pos harccos
      linarith
    · linarith

/-- For a Julian day between 10^6 and 6*10^6, the declination — an arcsine of
a product strictly inside `(-1, 1)` — has a strictly positive cosine. -/
lemma cos_declination_pos (dt : DateTimeUTC)
    (hjd1 : (1000000 : ℚ) ≤ julian_day dt)
    (hjd2 : julian_day dt ≤ 6000000) :
    0 < Real.cos (declination_of dt) := by
  have hjd1R : (1000000 : ℝ) ≤ jd_of dt := by
    unfold jd_of
    exact_mod_cast hjd1
  have hjd2R : jd_of dt ≤ 6000000 := by
    unfold jd_of
    exact_mod_cast hjd2
  have ht1 : -40 ≤ jcent_of dt := by
    unfold jcent_of
    rw [le_div_iff₀ (by norm_num : (0 : ℝ) < 36525.0)]
    linarith
  have ht2 : jcent_of dt ≤ 98 := by
    unfold jcent_of
    rw [div_le_iff₀ (by norm_num : (0 : ℝ) < 36525.0)]
    linarith
  have ho1 : 22 ≤ obliquity_of dt := by
    unfold obliquity_of
    nlinarith
  have ho2 : obliquity_of dt ≤ 25 := by
    unfold obliquity_of
    nlinarith
  have hpi315 : Real.pi < 3.15 := by
    have := Real.pi_lt_d2
    linarith
  have hor1 : 0 < radians (obliquity_of dt) := by
    unfold radians
    apply div_pos (mul_pos (by linarith) Real.pi_pos) (by norm_num)
  have hor2 : radians (obliquity_of dt) < 1 := by
    unfold radians
    rw [div_lt_iff₀ (by norm_num : (0 : ℝ) < 180)]
    nlinarith
  have hsinpos : 0 < Real.sin (radians (obliquity_of dt)) :=
    Real.sin_pos_of_pos_of_lt_pi hor1
      (by nlinarith [Real.pi_gt_three])
  have hsinlt : Real.sin (radians (obliquity_of dt)) < 1 :=
    lt_trans (Real.sin_lt hor1) hor2
  unfold declination_of
  rw [Real.cos_arcsin]
  apply Real.sqrt_pos.2
  have habs : |Real.sin (radians (obliquity_of dt))
      * Real.sin (radians (apparent_lon_of dt))| < 1 := by
    rw [abs_mul]
    calc |Real.sin (radians (obliquity_of dt))|
          * |Real.sin (radians (apparent_lon_of dt))|
        ≤ |Real.sin (radians (obliquity_of dt))| * 1 :=
          mul_le_mul_of_nonneg_left (Real.abs_sin_le_one _) (abs_nonneg _)
      _ = |Real.sin (radians (obliquity_of dt))| := mul_one _
      _ < 1 := by rw [abs_of_pos hsinpos]; exact hsinlt
  nlinarith [abs_nonneg (Real.sin (radians (obliquity_of dt))
    * Real.sin (radians (apparent_lon_of dt))),
    sq_abs (Real.sin (radians (obliquity_of dt))
    * Real.sin (radians (apparent_lon_of dt)))]

/-- C9: for every valid latitude, longitude and timestamp, `sun_position`
returns an azimuth in `[0, 360)` and an altitude in `[-90, 90]`. -/
theorem sun_position_range (dt : DateTimeUTC) (lat lon : ℝ)
    (hy1 : 1 ≤ dt.year) (hy2 : dt.year ≤ 9999)
    (hm1 : 1 ≤ dt.month) (hm2 : dt.month ≤ 12)
    (hd1 : 1 ≤ dt.day) (hd2 : dt.day ≤ 31)
    (hh1 : 0 ≤ dt.hour) (hh2 : dt.hour ≤ 23)
    (hmi1 : 0 ≤ dt.minute) (hmi2 : dt.minute ≤ 59)
    (hs1 : 0 ≤ dt.second) (hs2 : dt.second ≤ 59)
    (hlat1 : -90 ≤ lat) (hlat2 : lat ≤ 90)
    (hlon1 : -180 ≤ lon) (hlon2 : lon ≤ 180) :
    0 ≤ (sun_position dt lat lon).1 ∧ (sun_position dt lat lon).1 < 360 ∧
    -90 ≤ (sun_position dt lat lon).2 ∧ (sun_position dt lat lon).2 ≤ 90 := by
  obtain ⟨hj1, hj2⟩ := julian_day_bounds dt hy1 hy2 hm1 hm2 hd1 hd2 hh1 hh2
    hmi1 hmi2 hs1 hs2
  have hphi : 0 ≤ Real.cos (radians lat) := by
    apply Real.cos_nonneg_of_mem_Icc
    constructor
    · unfold radians
      rw [le_div_iff₀ (by norm_num : (0 : ℝ) < 180)]
      nlinarith [Real.pi_pos]
    · unfold radians
      rw [div_le_iff₀ (by norm_num : (0 : ℝ) < 180)]
      nlinarith [Real.pi_pos]
  have hdelta := cos_declination_pos dt hj1 hj2
  unfold sun_position
  exact horiz_from_range (radians lat) (declination_of dt)
    (hour_angle_of dt lon) hphi hdelta

/-- Witness for C9 at the configured default location on 2024-06-15 noon
UTC. -/
theorem sun_position_range_witness :
    0 ≤ (sun_position ⟨2024, 6, 15, 12, 0, 0⟩ 40.7128 (-74.4717)).1 ∧
    (sun_position ⟨2024, 6, 15, 12, 0, 0⟩ 40.7128 (-74.4717)).1 < 360 ∧
    -90 ≤ (sun_position ⟨2024, 6, 15, 12, 0, 0⟩ 40.7128 (-74.4717)).2 ∧
    (sun_position ⟨2024, 6, 15, 12, 0, 0⟩ 40.7128 (-74.4717)).2 ≤ 90 :=
  sun_position_range ⟨2024, 6, 15, 12, 0, 0⟩ 40.7128 (-74.4717)
    (by norm_num) (by norm_num) (by norm_num) (by norm_num) (by norm_num)
    (by norm_num) (by norm_num) (by norm_num) (by norm_num) (by norm_num)
    (by norm_num) (by norm_num) (by norm_num) (by norm_num) (by norm_num)
    (by norm_num)
